import Mathlib

/-!
Verification development for the DEW (Deep Earth Water) water-property stack
of the Reaktoro extension: equation-of-state density bisection, the numerical
integration engine for the water Gibbs energy, the Born omega model, the
solvent (Born-g) function and the dielectric/electro selector.

All real-valued quantities are modelled over `ℚ` (exact arithmetic standing in
for the C++ `double`s).  Empirical sub-formulas that are transcendental in the
source (`exp`, `log`, non-integer `pow`) are taken as function parameters of
the embedding, so every definition stays computable; the surrounding control
flow, guards, unit conversions and polynomial fits are translated literally
from the source files.
-/

namespace DEW

/-- Water thermodynamic state bundle, mirroring `WaterThermoProps`
(density `D` in kg/m^3, pressure derivative `DP` in kg/(m^3 Pa), plus the
temperature/second-order slots that the DEW branches leave at zero). -/
structure WaterThermoProps where
  D : ℚ
  DP : ℚ
  DT : ℚ := 0
  DTT : ℚ := 0
  DTP : ℚ := 0
  DPP : ℚ := 0
deriving Repr, DecidableEq

/-- A water thermo model: `(T [K], P [Pa]) → WaterThermoProps`.  Stands for
`waterThermoPropsModel(T, P, thermoWithTol)` with its options already fixed
(the EOS forward models contain `exp`, hence are parameters here). -/
def ThermoModel : Type := ℚ → ℚ → WaterThermoProps

--------------------------------------------------------------------------------
-- EOS density bisection
-- (WaterEosZhangDuan2005.cpp, zd05_density_g_cm3; and the identical loop in
--  WaterEosZhangDuan2009, calculateDensity_ZD09)
--------------------------------------------------------------------------------

/-- State of the bisection loop: the current bracket `[rmin, rmax]` and the
current iterate `rho` (all in g/cm^3). -/
structure BisectState where
  rmin : ℚ
  rmax : ℚ
  rho : ℚ
deriving Repr, DecidableEq

/-- One bracket update of the DEW bisection, exactly as in the source:
if the computed pressure overshoots the target, shrink from above
(`rho_max = rho; rho = 0.5*(rho + rho_min)`), otherwise from below. -/
def bisectStep (Pfun : ℚ → ℚ) (target : ℚ) (s : BisectState) : BisectState :=
  if Pfun s.rho - target > 0 then
    ⟨s.rmin, s.rho, (s.rho + s.rmin) / 2⟩
  else
    ⟨s.rho, s.rmax, (s.rho + s.rmax) / 2⟩

/-- The bisection loop with `fuel` remaining iterations.  Each iteration first
tests `|P(rho) - target| <= tol` and returns the current iterate on success;
when the fuel (the 50-iteration cap in the source) runs out, the last iterate
is returned unconditionally — the loop never raises. -/
def bisectLoop (Pfun : ℚ → ℚ) (target tol : ℚ) : Nat → BisectState → ℚ
  | 0, s => s.rho
  | n + 1, s =>
    if |Pfun s.rho - target| ≤ tol then s.rho
    else bisectLoop Pfun target tol n (bisectStep Pfun target s)

/-- The pure iteration path of the bisection (convergence tests only cut the
path short, they never change it). -/
def bisectIter (Pfun : ℚ → ℚ) (target : ℚ) (k : Nat) (s : BisectState) :
    BisectState :=
  (bisectStep Pfun target)^[k] s

/-- `zd05_density_g_cm3` from WaterEosZhangDuan2005.cpp: bisection over
`rho ∈ [1e-5, 2.5]` g/cm^3 starting at the lower bound, capped at 50
iterations.  `Pfun` stands for `zd05_pressure_bar(·, T_C)` (the forward
Zhang–Duan 2005 pressure model, transcendental in the source). -/
def zd05_density_g_cm3 (Pfun : ℚ → ℚ) (P_bar_target error_bar : ℚ) : ℚ :=
  bisectLoop Pfun P_bar_target error_bar 50 ⟨1 / 100000, 5 / 2, 1 / 100000⟩

/-- Options of the Zhang & Duan 2009 module (`WaterZhangDuan2009Options`),
with the header's defaults. -/
structure WaterZhangDuan2009Options where
  usePsat : Bool := false
  pressureToleranceBar : ℚ := 1 / 100
  maxIterations : Nat := 50
deriving Repr, DecidableEq

/-- `densityPsatPoly_DEW` (WaterEosZhangDuan2009.cpp): the DEW Psat-density
polynomial in Celsius temperature, in g/cm^3. -/
def densityPsatPoly_DEW (T_C : ℚ) : ℚ :=
  -101023381581205 / 10 ^ 118 * T_C ^ 40 +
  -113685997859530 / 10 ^ 41 * T_C ^ 10 +
  -211689207168779 / 10 ^ 25 * T_C ^ 4 +
  126878850169523 / 10 ^ 22 * T_C ^ 3 +
  -492010672693621 / 10 ^ 20 * T_C ^ 2 +
  -326665986126920 / 10 ^ 19 * T_C +
  100046144613017 / 10 ^ 14

/-- `calculateDensity_ZD09` (WaterEosZhangDuan2009.cpp): Psat polynomial when
requested, else bisection over `rho ∈ [1e-5, 10]` g/cm^3 capped at
`opts.maxIterations` (the `break` on convergence returns the same iterate as
ZD05's early `return`).  `Pfun` stands for `calculatePressure_ZD09(·, T_C)`. -/
def calculateDensity_ZD09 (Pfun : ℚ → ℚ) (P_bar : ℚ) (T_C : ℚ)
    (opts : WaterZhangDuan2009Options) : ℚ :=
  if opts.usePsat then densityPsatPoly_DEW T_C
  else
    bisectLoop Pfun P_bar opts.pressureToleranceBar opts.maxIterations
      ⟨1 / 100000, 10, 1 / 100000⟩

--------------------------------------------------------------------------------
-- Numerical integration engine (WaterGibbsModel.cpp, integral-model version)
--------------------------------------------------------------------------------

/-- The guarded molar-volume integrand used at every evaluation site of the
integration engine: `(wt.D > 0.0) ? (M / wt.D) : 0.0`. -/
def VmQ (M : ℚ) (wt : WaterThermoProps) : ℚ :=
  if wt.D > 0 then M / wt.D else 0

/-- `simpsonRule` (WaterGibbsModel.cpp): composite Simpson 1/3 rule with the
step count bumped to even, endpoint terms plus the 4-weighted odd interior
nodes and 2-weighted even interior nodes. -/
def simpsonRule (wtFun : ThermoModel) (T_K P_start_Pa P_end_Pa : ℚ)
    (nsteps0 : Nat) (M : ℚ) : ℚ :=
  let nsteps := if nsteps0 % 2 ≠ 0 then nsteps0 + 1 else nsteps0
  let h := (P_end_Pa - P_start_Pa) / (nsteps : ℚ)
  let sum :=
    VmQ M (wtFun T_K P_start_Pa)
    + (Finset.range nsteps).sum (fun i =>
        if i % 2 = 1 then 4 * VmQ M (wtFun T_K (P_start_Pa + (i : ℚ) * h))
        else 0)
    + (Finset.range nsteps).sum (fun i =>
        if 2 ≤ i ∧ i % 2 = 0 then
          2 * VmQ M (wtFun T_K (P_start_Pa + (i : ℚ) * h))
        else 0)
    + VmQ M (wtFun T_K P_end_Pa)
  h / 3 * sum

/-- The 16 Gauss–Legendre (node, weight) pairs of `struct GaussLegendre16`,
as exact rationals of the source's decimal literals. -/
def glPairs : List (ℚ × ℚ) :=
  [ (-9894009349916500 / 10 ^ 16, 271524594117540 / 10 ^ 16),
    (-9445750230732326 / 10 ^ 16, 622535239386479 / 10 ^ 16),
    (-8656312023878921 / 10 ^ 16, 951585116824927 / 10 ^ 16),
    (-7554044083550030 / 10 ^ 16, 1246289712555339 / 10 ^ 16),
    (-6178762444026437 / 10 ^ 16, 1495959888165767 / 10 ^ 16),
    (-4545454545454545 / 10 ^ 16, 1691423829631435 / 10 ^ 16),
    (-2736629541353671 / 10 ^ 16, 1826034150449235 / 10 ^ 16),
    (-914297953593871 / 10 ^ 16, 1894506104550585 / 10 ^ 16),
    (914297953593871 / 10 ^ 16, 1894506104550585 / 10 ^ 16),
    (2736629541353671 / 10 ^ 16, 1826034150449235 / 10 ^ 16),
    (4545454545454545 / 10 ^ 16, 1691423829631435 / 10 ^ 16),
    (6178762444026437 / 10 ^ 16, 1495959888165767 / 10 ^ 16),
    (7554044083550030 / 10 ^ 16, 1246289712555339 / 10 ^ 16),
    (8656312023878921 / 10 ^ 16, 951585116824927 / 10 ^ 16),
    (9445750230732326 / 10 ^ 16, 622535239386479 / 10 ^ 16),
    (9894009349916500 / 10 ^ 16, 271524594117540 / 10 ^ 16) ]

/-- `gaussLegendre16` (WaterGibbsModel.cpp): `nsegments` equal segments, each
mapping the canonical 16-node rule from [-1, 1] onto the segment. -/
def gaussLegendre16 (wtFun : ThermoModel) (T_K P_start_Pa P_end_Pa : ℚ)
    (nsegments : Nat) (M : ℚ) : ℚ :=
  let segment_width := (P_end_Pa - P_start_Pa) / (nsegments : ℚ)
  (Finset.range nsegments).sum (fun seg =>
    let P_seg_start := P_start_Pa + (seg : ℚ) * segment_width
    let P_seg_end := P_seg_start + segment_width
    let center := (P_seg_start + P_seg_end) / 2
    let half_width := segment_width / 2
    let seg_integral :=
      (glPairs.map (fun nw =>
        nw.2 * VmQ M (wtFun T_K (center + half_width * nw.1)))).sum
    half_width * seg_integral)

/-- `adaptiveSimpsonsHelper` (WaterGibbsModel.cpp).  `fuel` is
`max_depth + 1 - current_depth`, so `fuel = 0` is exactly the source's
`current_depth > max_depth` case — in which the source returns `0.0`
(`// Safety: stop recursing`), discarding that branch's contribution.
Otherwise the 3-point Simpson estimate `S` is accepted when the midpoint
error estimator is within `tol`, else both halves recurse with `tol / 2`.
The two interior midpoint volumes the source computes before recursing are
dead values (the recursive calls receive `Vm_L, Vm_mid` and `Vm_mid, Vm_R`),
so they are not reproduced here. -/
def adaptiveSimpsonsHelper (wtFun : ThermoModel) (T_K : ℚ) :
    Nat → ℚ → ℚ → ℚ → ℚ → ℚ → ℚ → ℚ
  | 0, _, _, _, _, _, _ => 0
  | fuel + 1, P_L, P_R, tol, M, Vm_L, Vm_R =>
    let P_mid := (P_L + P_R) / 2
    let Vm_mid := VmQ M (wtFun T_K P_mid)
    let h := (P_R - P_L) / 6
    let S := h * (Vm_L + 4 * Vm_mid + Vm_R)
    let error_estimator := |Vm_mid - (Vm_L + Vm_R) / 2|
    if error_estimator ≤ tol then S
    else
      adaptiveSimpsonsHelper wtFun T_K fuel P_L P_mid (tol / 2) M Vm_L Vm_mid +
      adaptiveSimpsonsHelper wtFun T_K fuel P_mid P_R (tol / 2) M Vm_mid Vm_R

/-- `adaptiveSimpson` (WaterGibbsModel.cpp): evaluates the guarded endpoint
volumes and starts the recursion at depth 0 (i.e. fuel `max_depth + 1`). -/
def adaptiveSimpson (wtFun : ThermoModel) (T_K P_start_Pa P_end_Pa tol : ℚ)
    (max_depth : Nat) (M : ℚ) : ℚ :=
  let Vm_start := VmQ M (wtFun T_K P_start_Pa)
  let Vm_end := VmQ M (wtFun T_K P_end_Pa)
  adaptiveSimpsonsHelper wtFun T_K (max_depth + 1) P_start_Pa P_end_Pa tol M
    Vm_start Vm_end

/-- The fixed-step trapezoidal path inlined in `gibbsDewIntegral_J_per_mol`
(case `WaterIntegrationMethod::Trapezoidal`): steps with non-positive density
are skipped (`continue`) without updating the running `Vm_prev`. -/
def trapezoidalIntegral (wtFun : ThermoModel) (T_K P_start_Pa dP : ℚ)
    (nsteps : Nat) (M : ℚ) : ℚ :=
  let Vm_prev0 := VmQ M (wtFun T_K P_start_Pa)
  let step := fun (st : ℚ × ℚ) (i : Nat) =>
    let wt := wtFun T_K (P_start_Pa + (i : ℚ) * dP)
    if wt.D ≤ 0 then st
    else (st.1 + 1 / 2 * (st.2 + M / wt.D) * dP, M / wt.D)
  ((List.range' 1 nsteps).foldl step (0, Vm_prev0)).1

/-- The Excel-compatibility Riemann sum of `gibbsDewIntegral_J_per_mol`
(`opt.useExcelIntegration` branch): inclusive loop from 1000 bar in steps of
`spacing_bar`, stopping after `P_bar + 1e-9`; non-positive densities are
skipped (contribute nothing). -/
def excelIntegral (wtFun : ThermoModel) (T_K P_bar spacing_bar : ℚ) (M : ℚ) :
    ℚ :=
  let count := (⌊(P_bar + 1 / 10 ^ 9 - 1000) / spacing_bar⌋).toNat + 1
  (Finset.range count).sum (fun i =>
    let Pstep_bar := 1000 + (i : ℚ) * spacing_bar
    let wt := wtFun T_K (Pstep_bar * 10 ^ 5)
    if wt.D ≤ 0 then 0
    else M / wt.D * (spacing_bar * 10 ^ 5))

/-- The four selectable quadrature algorithms (`WaterIntegrationMethod`). -/
inductive WaterIntegrationMethod where
  | Trapezoidal
  | Simpson
  | GaussLegendre16
  | AdaptiveSimpson
deriving Repr, DecidableEq

/-- Options of the DEW integral water-Gibbs model (`WaterGibbsModelOptions`),
with the defaults documented in the repository. -/
structure WaterGibbsModelOptions where
  useExcelIntegration : Bool := false
  integrationMethod : WaterIntegrationMethod := .Trapezoidal
  integrationSteps : Nat := 5000
  adaptiveIntegrationTolerance : ℚ := 1 / 10
  maxAdaptiveSubdivisions : Nat := 20
  densityTolerance : ℚ := 1 / 1000
deriving Repr, DecidableEq

/-- `GAtOneKb_cal_per_mol` (WaterGibbsModel.cpp): the closed-form 1-kbar
baseline polynomial in Celsius temperature, in cal/mol. -/
def GAtOneKb_cal_per_mol (T_C : ℚ) : ℚ :=
  26880734 / 10 ^ 16 * T_C ^ 4 +
  63163061 / 10 ^ 14 * T_C ^ 3 -
  19372355 / 10 ^ 9 * (T_C * T_C) -
  16945093 / 10 ^ 6 * T_C -
  55769287 / 10 ^ 3

/-- `gibbsDewIntegral_J_per_mol` (WaterGibbsModel.cpp, integral model):
returns 0 below 1000 bar, the converted 1-kbar baseline at exactly 1000 bar,
and otherwise the baseline plus the selected quadrature of `M/rho` from
1000 bar to `P`.  `wtFun` stands for `waterThermoPropsModel` with the
density-tolerance-adjusted options `thermoWithTol` already applied. -/
def gibbsDewIntegral_J_per_mol (wtFun : ThermoModel) (T_K P_Pa : ℚ)
    (opt : WaterGibbsModelOptions) : ℚ :=
  let T_C := T_K - 27315 / 100
  let P_bar := P_Pa / 10 ^ 5
  if P_bar < 1000 then 0
  else
    let G1k_cal := GAtOneKb_cal_per_mol T_C
    if P_bar = 1000 then G1k_cal * (4184 / 1000)
    else
      let M : ℚ := 1801528 / 10 ^ 8
      let G_int_J :=
        if opt.useExcelIntegration then
          let spacing_bar := max 1 ((P_bar - 1000) / 5000)
          excelIntegral wtFun T_K P_bar spacing_bar M
        else
          let P_start_Pa : ℚ := 1000 * 10 ^ 5
          match opt.integrationMethod with
          | .Trapezoidal =>
            let dP := (P_Pa - P_start_Pa) / (opt.integrationSteps : ℚ)
            trapezoidalIntegral wtFun T_K P_start_Pa dP opt.integrationSteps M
          | .Simpson =>
            simpsonRule wtFun T_K P_start_Pa P_Pa opt.integrationSteps M
          | .GaussLegendre16 =>
            gaussLegendre16 wtFun T_K P_start_Pa P_Pa
              (max 1 (opt.integrationSteps / 16)) M
          | .AdaptiveSimpson =>
            adaptiveSimpson wtFun T_K P_start_Pa P_Pa
              opt.adaptiveIntegrationTolerance opt.maxAdaptiveSubdivisions M
      G1k_cal * (4184 / 1000) + G_int_J

--------------------------------------------------------------------------------
-- Solvent (Born-g) function (WaterSolventFunctionDEW.cpp)
--------------------------------------------------------------------------------

/-- Options of the solvent function (`WaterSolventFunctionOptions`). -/
structure WaterSolventFunctionOptions where
  Psat : Bool := false
  densityEquation : Int := 0
deriving Repr, DecidableEq

/-- The `a_g` temperature coefficient of the solvent function. -/
def solvent_a_g (T_C : ℚ) : ℚ :=
  -2037662 / 10 ^ 6 + 5747 / 10 ^ 6 * T_C - 6557892 / 10 ^ 12 * T_C * T_C

/-- The `b_g` temperature coefficient of the solvent function. -/
def solvent_b_g (T_C : ℚ) : ℚ :=
  6107361 / 10 ^ 6 - 1074377 / 10 ^ 8 * T_C + 1268348 / 10 ^ 11 * T_C * T_C

/-- The bounded-window correction term `f` of the solvent function: nonzero
only for `P <= 1000 bar` and `155 <= T_C <= 355`.  `rpow` stands for
`std::pow` with non-integer exponent (here `x^4.8`); the integer powers are
exact. -/
def solvent_f (rpow : ℚ → ℚ → ℚ) (T_C P_bar : ℚ) : ℚ :=
  if P_bar ≤ 1000 ∧ 155 ≤ T_C ∧ T_C ≤ 355 then
    let x := (T_C - 155) / 300
    let x_4_8 := rpow x (24 / 5)
    let x_16 := x ^ 16
    (x_4_8 + 3666666 / 10 ^ 5 * x_16) *
      (-1504956 / 10 ^ 16 * (1000 - P_bar) ^ 3 +
        5017997 / 10 ^ 20 * (1000 - P_bar) ^ 4)
  else 0

/-- `waterSolventFunctionDEW` (WaterSolventFunctionDEW.cpp).  In the Psat
branch the density is the DEW Psat polynomial and the pressure is the
Wagner–Pruss saturation pressure `psatP` (external correlation, a parameter
here); in the general branch the caller's state density is used, and the
function is exactly zero once that density reaches 1 g/cm^3.  `rpow` stands
for the non-integer `std::pow` (the `(1 - rho)^b_g` factor and `x^4.8`). -/
def waterSolventFunctionDEW (rpow : ℚ → ℚ → ℚ) (psatP : ℚ → ℚ)
    (T P : ℚ) (wt : WaterThermoProps) (opt : WaterSolventFunctionOptions) :
    ℚ :=
  let T_C := T - 27315 / 100
  if opt.Psat then
    let rho_psat_g_cm3 := densityPsatPoly_DEW T_C
    if rho_psat_g_cm3 ≥ 1 then 0
    else
      let Psat_bar := psatP T / 10 ^ 5
      let f := solvent_f rpow T_C Psat_bar
      solvent_a_g T_C * rpow (1 - rho_psat_g_cm3) (solvent_b_g T_C) - f
  else
    let P_bar := P / 10 ^ 5
    let rho_g := wt.D / 1000
    if rho_g ≥ 1 then 0
    else
      let f := solvent_f rpow T_C P_bar
      solvent_a_g T_C * rpow (1 - rho_g) (solvent_b_g T_C) - f

/-- `waterSolventFunctionDgdP_DEW` (WaterSolventFunctionDEW.cpp).  The Psat
branch returns the dedicated DEW polynomial `psatDgdP` (log-polynomial in the
source, a parameter here); the general branch is exactly zero once the state
density reaches 1 g/cm^3, else the analytic chain-rule derivative. -/
def waterSolventFunctionDgdP_DEW (rpow : ℚ → ℚ → ℚ) (psatDgdP : ℚ → ℚ)
    (T P : ℚ) (wt : WaterThermoProps) (g : ℚ)
    (opt : WaterSolventFunctionOptions) : ℚ :=
  let T_C := T - 27315 / 100
  if opt.Psat then psatDgdP T
  else
    let P_bar := P / 10 ^ 5
    let rho_g := wt.D / 1000
    if rho_g ≥ 1 then 0
    else
      let b_g := solvent_b_g T_C
      let dfdP_bar :=
        if P_bar ≤ 1000 ∧ 155 ≤ T_C ∧ T_C ≤ 355 then
          let x := (T_C - 155) / 300
          let x_4_8 := rpow x (24 / 5)
          let x_16 := x ^ 16
          Neg.neg ((x_4_8 + 3666666 / 10 ^ 5 * x_16) *
            (3 * (-1504956 / 10 ^ 16) * (1000 - P_bar) ^ 2 +
              4 * (5017997 / 10 ^ 20) * (1000 - P_bar) ^ 3))
        else 0
      let drho_g_dP_bar := wt.DP * 100
      let one_minus_rho := 1 - rho_g
      let dgdP_bar := -b_g * drho_g_dP_bar * g / one_minus_rho - dfdP_bar
      dgdP_bar / 10 ^ 5

--------------------------------------------------------------------------------
-- Born omega model (WaterBornOmegaDEW.cpp)
--------------------------------------------------------------------------------

/-- Options of the Born omega model (`WaterBornOmegaOptions`), with the
header's defaults: in particular the cutoff pressure default of
6000 bar = 6000e5 Pa. -/
structure WaterBornOmegaOptions where
  solvent : WaterSolventFunctionOptions := {}
  isHydrogenLike : Bool := false
  maxPressureForVariation : ℚ := 6000 * 10 ^ 5
deriving Repr, DecidableEq

/-- The solvent-g module as seen by the Born omega model (`compute_g`):
`(T, P, wt, solvent options) → g`.  The concrete instance is
`waterSolventFunctionDEW` with its transcendental parameters fixed. -/
def SolventGFun : Type :=
  ℚ → ℚ → WaterThermoProps → WaterSolventFunctionOptions → ℚ

/-- The solvent dg/dP module as seen by the Born omega model
(`compute_dgdP`): `(T, P, wt, g, solvent options) → dg/dP [1/Pa]`. -/
def SolventDgdPFun : Type :=
  ℚ → ℚ → WaterThermoProps → ℚ → WaterSolventFunctionOptions → ℚ

/-- The DEW electrostatic constant `eta` in Å·cal/mol. -/
def eta_cal_per_A : ℚ := 166027

/-- The reference-radius denominator `wref/eta + Z/3.082` of
`waterBornOmegaDEW` (with `wref` converted J/mol → cal/mol first). -/
def bornDenom (wref_Jmol Z : ℚ) : ℚ :=
  wref_Jmol / (4184 / 1000) / eta_cal_per_A + Z / (3082 / 1000)

/-- The effective electrostatic radius `reref + |Z| * g` of
`waterBornOmegaDEW`, with `reref = Z^2 / denom`. -/
def bornRe (gfun : SolventGFun) (T P : ℚ) (wt : WaterThermoProps)
    (wref_Jmol Z : ℚ) (opt : WaterBornOmegaOptions) : ℚ :=
  Z ^ 2 / bornDenom wref_Jmol Z + |Z| * gfun T P wt opt.solvent

/-- `waterBornOmegaDEW` (WaterBornOmegaDEW.cpp): trivially `wref` when the
charge is zero, the species is hydrogen-like, or `P` exceeds the cutoff;
then the `denom == 0.0` and `re <= 0.0` safeguards; else the DEW formula
`eta * (Z^2/re - Z/(3.082 + g))` converted back to J/mol. -/
def waterBornOmegaDEW (gfun : SolventGFun) (T P : ℚ) (wt : WaterThermoProps)
    (wref_Jmol Z : ℚ) (opt : WaterBornOmegaOptions) : ℚ :=
  if Z = 0 ∨ opt.isHydrogenLike = true ∨ opt.maxPressureForVariation < P then
    wref_Jmol
  else
    let denom := bornDenom wref_Jmol Z
    if denom = 0 then wref_Jmol
    else
      let reref_A := Z ^ 2 / denom
      let g := gfun T P wt opt.solvent
      let re_A := reref_A + |Z| * g
      if re_A ≤ 0 then wref_Jmol
      else
        let omega_cal :=
          eta_cal_per_A * (Z ^ 2 / re_A - Z / (3082 / 1000 + g))
        omega_cal * (4184 / 1000)

/-- `waterBornDOmegaDP_DEW` (WaterBornOmegaDEW.cpp): same trivial and
degenerate guards as the omega function (returning 0), else the analytic
derivative `-eta * (|Z|^3/re^2 - Z/(3.082+g)^2) * dgdP` converted to
J/mol/Pa. -/
def waterBornDOmegaDP_DEW (gfun : SolventGFun) (dgfun : SolventDgdPFun)
    (T P : ℚ) (wt : WaterThermoProps) (wref_Jmol Z : ℚ)
    (opt : WaterBornOmegaOptions) : ℚ :=
  if Z = 0 ∨ opt.isHydrogenLike = true ∨ opt.maxPressureForVariation < P then
    0
  else
    let denom := bornDenom wref_Jmol Z
    if denom = 0 then 0
    else
      let reref_A := Z ^ 2 / denom
      let g := gfun T P wt opt.solvent
      let dgdP := dgfun T P wt g opt.solvent
      let re_A := reref_A + |Z| * g
      if re_A ≤ 0 then 0
      else
        let term :=
          |Z| ^ 3 / (re_A * re_A) -
            Z / ((3082 / 1000 + g) * (3082 / 1000 + g))
        Neg.neg eta_cal_per_A * term * dgdP * (4184 / 1000)

--------------------------------------------------------------------------------
-- Dielectric / electro model selector (WaterElectroModel.cpp and the four
-- dielectric formulation modules)
--------------------------------------------------------------------------------

/-- Electro-state bundle, mirroring `WaterElectroProps`. -/
structure WaterElectroProps where
  epsilon : ℚ
  epsilonP : ℚ
  epsilonT : ℚ := 0
  epsilonTT : ℚ := 0
  epsilonTP : ℚ := 0
  epsilonPP : ℚ := 0
  bornZ : ℚ := 0
  bornQ : ℚ := 0
  bornY : ℚ := 0
  bornX : ℚ := 0
  bornN : ℚ := 0
  bornU : ℚ := 0
deriving Repr, DecidableEq

/-- The four selectable dielectric formulations (`WaterDielectricModel`). -/
inductive WaterDielectricModel where
  | JohnsonNorton1991
  | Franck1990
  | Fernandez1997
  | PowerFunction
deriving Repr, DecidableEq

/-- An empirical dielectric fit `(T [K], rho [g/cm^3]) → value`; each
formulation's `epsilon` and `d epsilon / d rho` closed forms are
transcendental in the source, so they enter the embedding as parameters. -/
def DielectricFit : Type := ℚ → ℚ → ℚ

/-- The bundle of empirical fit functions feeding the four dielectric
modules: for each formulation, the `epsilon(T, rho)` fit and its
analytically matched `d epsilon / d rho`. -/
structure DielectricFits where
  epsJN : DielectricFit
  depsJN : DielectricFit
  epsFranck : DielectricFit
  depsFranck : DielectricFit
  epsFernandez : DielectricFit
  depsFernandez : DielectricFit
  epsPower : DielectricFit
  depsPower : DielectricFit

/-- `waterElectroPropsFernandez1997` (WaterDielectricFernandez1997.cpp):
density converted kg/m^3 → g/cm^3, `epsilonP` by chain rule
`(d eps/d rho) * (DP / 1000)`, Born `Z = -1/eps` and `Q = epsilonP/eps^2`
guarded by `eps != 0` (else both zero); all other slots zero. -/
def waterElectroPropsFernandez1997 (fits : DielectricFits) (T P : ℚ)
    (wt : WaterThermoProps) : WaterElectroProps :=
  let rho_g_cm3 := wt.D / 1000
  let eps := fits.epsFernandez T rho_g_cm3
  let epsP := fits.depsFernandez T rho_g_cm3 * (wt.DP / 1000)
  { epsilon := eps
    epsilonP := epsP
    bornZ := if eps ≠ 0 then -1 / eps else 0
    bornQ := if eps ≠ 0 then epsP / (eps * eps) else 0 }

/-- `waterElectroPropsFranck1990` (WaterElectroModel.hpp, Franck module):
same wiring as the Fernandez module, except that the source computes
`bornZ = -1/eps` without an `eps != 0` guard (only `bornQ` is guarded). -/
def waterElectroPropsFranck1990 (fits : DielectricFits) (T P : ℚ)
    (wt : WaterThermoProps) : WaterElectroProps :=
  let rho_g_cm3 := wt.D / 1000
  let eps := fits.epsFranck T rho_g_cm3
  let epsP := fits.depsFranck T rho_g_cm3 * (wt.DP / 1000)
  { epsilon := eps
    epsilonP := epsP
    bornZ := -1 / eps
    bornQ := if eps ≠ 0 then epsP / (eps * eps) else 0 }

/-- `waterElectroPropsPowerFunction` (WaterDEW power-function module):
same wiring and `eps != 0` guard as the Fernandez module. -/
def waterElectroPropsPowerFunction (fits : DielectricFits) (T P : ℚ)
    (wt : WaterThermoProps) : WaterElectroProps :=
  let rho_g_cm3 := wt.D / 1000
  let eps := fits.epsPower T rho_g_cm3
  let epsP := fits.depsPower T rho_g_cm3 * (wt.DP / 1000)
  { epsilon := eps
    epsilonP := epsP
    bornZ := if eps ≠ 0 then -1 / eps else 0
    bornQ := if eps ≠ 0 then epsP / (eps * eps) else 0 }

/-- Modelled from the spec: the Johnson & Norton (1991) dielectric module
(`waterElectroPropsJohnsonNorton`, whose translation unit is not among the
provided sources; only its header include and call sites are).  Per the
specification it computes `epsilon` and `d epsilon / d rho` from an
empirical closed-form fit, forms `epsilonP` by the chain rule with
`d rho / dP`, and recomputes the Born coefficients consistently as
`Z = -1/eps` and `Q = epsilonP/eps^2`, leaving higher derivatives zero. -/
def waterElectroPropsJohnsonNorton (fits : DielectricFits) (T P : ℚ)
    (wt : WaterThermoProps) : WaterElectroProps :=
  let rho_g_cm3 := wt.D / 1000
  let eps := fits.epsJN T rho_g_cm3
  let epsP := fits.depsJN T rho_g_cm3 * (wt.DP / 1000)
  { epsilon := eps
    epsilonP := epsP
    bornZ := if eps ≠ 0 then -1 / eps else 0
    bornQ := if eps ≠ 0 then epsP / (eps * eps) else 0 }

/-- `waterPsatEpsilonDEW` (WaterPsatPolynomialsDEW.cpp): the DEW Psat
dielectric polynomial in Celsius temperature (the range guard
`isValidForPsatPolys` is identically true in the source). -/
def waterPsatEpsilonDEW (T_K : ℚ) : ℚ :=
  let T_C := T_K - 27315 / 100
  Neg.neg (166686763214295 / 10 ^ 91) * T_C ^ 30 +
  -902887020379887 / 10 ^ 21 * T_C ^ 3 +
  84590281449009 / 10 ^ 17 * T_C ^ 2 +
  -396542037778945 / 10 ^ 15 * T_C +
  87605024245432 / 10 ^ 12

/-- `waterPsatBornQDEW` (WaterPsatPolynomialsDEW.cpp): the DEW Psat Born-Q
polynomial in Celsius temperature, scaled 1e-6 [1/bar] then 1e-5 → [1/Pa]. -/
def waterPsatBornQDEW (T_K : ℚ) : ℚ :=
  let T_C := T_K - 27315 / 100
  let poly :=
    199258688758345 / 10 ^ 63 * T_C ^ 20 +
    -443690270750774 / 10 ^ 28 * T_C ^ 6 +
    429110215680165 / 10 ^ 25 * T_C ^ 5 +
    -107146606081182 / 10 ^ 22 * T_C ^ 4 +
    109982931856694 / 10 ^ 20 * T_C ^ 3 +
    960705240954956 / 10 ^ 20 * T_C ^ 2 +
    642579832259358 / 10 ^ 15
  poly / 10 ^ 6 / 10 ^ 5

/-- Options of the electro-model selector (`WaterElectroModelOptions`). -/
structure WaterElectroModelOptions where
  model : WaterDielectricModel := .JohnsonNorton1991
  usePsatPolynomials : Bool := false
  psatRelativeTolerance : ℚ := 1 / 1000
deriving Repr, DecidableEq

/-- `isNearPsat` (WaterElectroModel.cpp): the relative proximity test
`|P - Psat(T)| <= relTol * Psat(T)`, false for non-positive tolerance or
non-positive saturation pressure.  `psat` stands for the external
Wagner–Pruss saturation-pressure correlation [Pa]; the source's
`isfinite` checks are vacuous over exact rationals. -/
def isNearPsat (psat : ℚ → ℚ) (T_K P_Pa relTol : ℚ) : Bool :=
  if relTol ≤ 0 then false
  else if ¬ psat T_K > 0 then false
  else |P_Pa - psat T_K| ≤ relTol * psat T_K

/-- `maybeApplyPsatOverride` (WaterElectroModel.cpp): near saturation (and
only when requested), `epsilon` and `bornQ` are replaced by their dedicated
Psat polynomials, `bornZ = -1/eps` is recomputed, and `epsilonP` is
reconstructed from the overridden Q via `epsilonP = Q * eps^2`; a
non-positive polynomial epsilon keeps the underlying model values. -/
def maybeApplyPsatOverride (psat : ℚ → ℚ) (T P : ℚ)
    (opt : WaterElectroModelOptions) (we : WaterElectroProps) :
    WaterElectroProps :=
  if opt.usePsatPolynomials = false then we
  else if isNearPsat psat T P opt.psatRelativeTolerance = false then we
  else
    let eps_p := waterPsatEpsilonDEW T
    let Q_p := waterPsatBornQDEW T
    if eps_p ≤ 0 then we
    else
      { we with
        epsilon := eps_p
        bornZ := -1 / eps_p
        bornQ := Q_p
        epsilonP := Q_p * (eps_p * eps_p) }

/-- `waterElectroPropsModel` (WaterElectroModel.cpp): dispatches on the
selected formulation, then applies the optional Psat polynomial override. -/
def waterElectroPropsModel (fits : DielectricFits) (psat : ℚ → ℚ) (T P : ℚ)
    (wt : WaterThermoProps) (opt : WaterElectroModelOptions) :
    WaterElectroProps :=
  let we :=
    match opt.model with
    | .JohnsonNorton1991 => waterElectroPropsJohnsonNorton fits T P wt
    | .Franck1990 => waterElectroPropsFranck1990 fits T P wt
    | .Fernandez1997 => waterElectroPropsFernandez1997 fits T P wt
    | .PowerFunction => waterElectroPropsPowerFunction fits T P wt
  maybeApplyPsatOverride psat T P opt we

--------------------------------------------------------------------------------
-- Theorems: EOS density bisection (claims about convergence and bracketing)
--------------------------------------------------------------------------------

/-- The bisection loop follows the pure iteration path: it returns the first
iterate within tolerance if one appears before the fuel runs out, and
otherwise the iterate reached when the fuel is exhausted. -/
theorem bisectLoop_spec (Pfun : ℚ → ℚ) (target tol : ℚ) :
    ∀ (fuel : Nat) (s : BisectState),
      ∃ k, k ≤ fuel ∧
        bisectLoop Pfun target tol fuel s =
          (bisectIter Pfun target k s).rho ∧
        (∀ j, j < k →
          ¬ |Pfun (bisectIter Pfun target j s).rho - target| ≤ tol) ∧
        (|Pfun (bisectIter Pfun target k s).rho - target| ≤ tol ∨ k = fuel) :=
  by
  intro fuel
  induction fuel with
  | zero =>
    intro s
    refine ⟨0, le_refl 0, ?_, ?_, Or.inr rfl⟩
    · simp [bisectLoop, bisectIter]
    · intro j hj
      exact absurd hj (Nat.not_lt_zero j)
  | succ n ih =>
    intro s
    by_cases hconv : |Pfun s.rho - target| ≤ tol
    · refine ⟨0, Nat.zero_le _, ?_, ?_, Or.inl ?_⟩
      · simp [bisectLoop, hconv, bisectIter]
      · intro j hj
        exact absurd hj (Nat.not_lt_zero j)
      · simpa [bisectIter] using hconv
    · obtain ⟨k, hk, heq, hmin, hdisj⟩ := ih (bisectStep Pfun target s)
      refine ⟨k + 1, Nat.succ_le_succ hk, ?_, ?_, ?_⟩
      · rw [show bisectLoop Pfun target tol (n + 1) s =
            bisectLoop Pfun target tol n (bisectStep Pfun target s) from
            by simp [bisectLoop, hconv]]
        rw [heq]
        simp [bisectIter, Function.iterate_succ_apply]
      · intro j hj
        match j with
        | 0 => simpa [bisectIter] using hconv
        | j + 1 =>
          have hj2 : j < k := Nat.lt_of_succ_lt_succ hj
          have := hmin j hj2
          simpa [bisectIter, Function.iterate_succ_apply] using this
      · rcases hdisj with h | h
        · exact Or.inl (by
            simpa [bisectIter, Function.iterate_succ_apply] using h)
        · exact Or.inr (by rw [h])

/-- The bisection loop keeps its iterate inside any interval `[lo, hi]` that
contains the initial bracket-ordered state. -/
theorem bisectLoop_mem (Pfun : ℚ → ℚ) (target tol lo hi : ℚ) :
    ∀ (fuel : Nat) (s : BisectState),
      lo ≤ s.rmin → s.rmin ≤ s.rho → s.rho ≤ s.rmax → s.rmax ≤ hi →
      lo ≤ bisectLoop Pfun target tol fuel s ∧
        bisectLoop Pfun target tol fuel s ≤ hi :=
  by
  intro fuel
  induction fuel with
  | zero =>
    intro s h1 h2 h3 h4
    constructor
    · calc lo ≤ s.rmin := h1
        _ ≤ s.rho := h2
        _ = bisectLoop Pfun target tol 0 s := rfl
    · calc bisectLoop Pfun target tol 0 s = s.rho := rfl
        _ ≤ s.rmax := h3
        _ ≤ hi := h4
  | succ n ih =>
    intro s h1 h2 h3 h4
    by_cases hconv : |Pfun s.rho - target| ≤ tol
    · have hval : bisectLoop Pfun target tol (n + 1) s = s.rho := by
        simp [bisectLoop, hconv]
      constructor
      · rw [hval]; exact le_trans h1 h2
      · rw [hval]; exact le_trans h3 h4
    · have hval : bisectLoop Pfun target tol (n + 1) s =
          bisectLoop Pfun target tol n (bisectStep Pfun target s) := by
        simp [bisectLoop, hconv]
      rw [hval]
      by_cases hdir : Pfun s.rho - target > 0
      · have hstep : bisectStep Pfun target s =
            ⟨s.rmin, s.rho, (s.rho + s.rmin) / 2⟩ := by
          simp [bisectStep, hdir]
        rw [hstep]
        exact ih _ h1 (by dsimp only; linarith) (by dsimp only; linarith)
          (le_trans h3 h4)
      · have hstep : bisectStep Pfun target s =
            ⟨s.rho, s.rmax, (s.rho + s.rmax) / 2⟩ := by
          simp [bisectStep, hdir]
        rw [hstep]
        exact ih _ (le_trans h1 h2) (by dsimp only; linarith)
          (by dsimp only; linarith) h4

/-- C5: for every forward pressure model, target pressure and tolerance, each
EOS density bisection (Zhang & Duan 2005, and Zhang & Duan 2009 at its
default 50-iteration cap with the Psat branch off) is a total function that
follows the bisection iterates for at most 50 iterations: it returns the
first iterate whose computed pressure is within the tolerance of the target
(none of the earlier iterates being within tolerance), and otherwise the
last iterate after the 50th iteration — degraded precision, never a
failure. -/
theorem C5_bisection_50_iterations_no_failure
    (Pfun05 Pfun09 : ℚ → ℚ) (target05 tol05 target09 T_C : ℚ)
    (opts : WaterZhangDuan2009Options)
    (hPsat : opts.usePsat = false) (hIter : opts.maxIterations = 50) :
    (∃ k, k ≤ 50 ∧
      zd05_density_g_cm3 Pfun05 target05 tol05 =
        (bisectIter Pfun05 target05 k ⟨1 / 100000, 5 / 2, 1 / 100000⟩).rho ∧
      (∀ j, j < k →
        ¬ |Pfun05 (bisectIter Pfun05 target05 j
            ⟨1 / 100000, 5 / 2, 1 / 100000⟩).rho - target05| ≤ tol05) ∧
      (|Pfun05 (bisectIter Pfun05 target05 k
          ⟨1 / 100000, 5 / 2, 1 / 100000⟩).rho - target05| ≤ tol05 ∨
        k = 50)) ∧
    (∃ k, k ≤ 50 ∧
      calculateDensity_ZD09 Pfun09 target09 T_C opts =
        (bisectIter Pfun09 target09 k ⟨1 / 100000, 10, 1 / 100000⟩).rho ∧
      (∀ j, j < k →
        ¬ |Pfun09 (bisectIter Pfun09 target09 j
            ⟨1 / 100000, 10, 1 / 100000⟩).rho - target09| ≤
          opts.pressureToleranceBar) ∧
      (|Pfun09 (bisectIter Pfun09 target09 k
          ⟨1 / 100000, 10, 1 / 100000⟩).rho - target09| ≤
          opts.pressureToleranceBar ∨ k = 50)) :=
  by
  constructor
  · exact bisectLoop_spec Pfun05 target05 tol05 50 _
  · have hdef : calculateDensity_ZD09 Pfun09 target09 T_C opts =
        bisectLoop Pfun09 target09 opts.pressureToleranceBar 50
          ⟨1 / 100000, 10, 1 / 100000⟩ := by
      simp [calculateDensity_ZD09, hPsat, hIter]
    rw [hdef]
    exact bisectLoop_spec Pfun09 target09 opts.pressureToleranceBar 50 _

/-- Witness for C5 at a concrete pressure model and target. -/
theorem C5_bisection_50_iterations_no_failure_witness :
    (∃ k, k ≤ 50 ∧
      zd05_density_g_cm3 (fun r => r) 100 0 =
        (bisectIter (fun r => r) 100 k
          ⟨1 / 100000, 5 / 2, 1 / 100000⟩).rho ∧
      (∀ j, j < k →
        ¬ |(bisectIter (fun r => r) 100 j
            ⟨1 / 100000, 5 / 2, 1 / 100000⟩).rho - 100| ≤ 0) ∧
      (|(bisectIter (fun r => r) 100 k
          ⟨1 / 100000, 5 / 2, 1 / 100000⟩).rho - 100| ≤ 0 ∨ k = 50)) ∧
    (∃ k, k ≤ 50 ∧
      calculateDensity_ZD09 (fun r => r) 7 25
        { usePsat := false, pressureToleranceBar := 1 / 100,
          maxIterations := 50 } =
        (bisectIter (fun r => r) 7 k ⟨1 / 100000, 10, 1 / 100000⟩).rho ∧
      (∀ j, j < k →
        ¬ |(bisectIter (fun r => r) 7 j
            ⟨1 / 100000, 10, 1 / 100000⟩).rho - 7| ≤ (1 : ℚ) / 100) ∧
      (|(bisectIter (fun r => r) 7 k
          ⟨1 / 100000, 10, 1 / 100000⟩).rho - 7| ≤ (1 : ℚ) / 100 ∨
        k = 50)) :=
  C5_bisection_50_iterations_no_failure (fun r => r) (fun r => r) 100 0 7 25
    { usePsat := false, pressureToleranceBar := 1 / 100, maxIterations := 50 }
    rfl rfl

/-- C9: for every forward pressure model, target pressure and tolerance —
including targets outside the model's validity range — the density returned
by the EOS bisection lies inside the variant's initial bracket
([1e-5, 2.5] g/cm^3 for Zhang & Duan 2005, [1e-5, 10] g/cm^3 for
Zhang & Duan 2009 with the Psat branch off), hence is strictly positive. -/
theorem C9_bisection_bracket_positive
    (Pfun05 Pfun09 : ℚ → ℚ) (target05 tol05 target09 T_C : ℚ)
    (opts : WaterZhangDuan2009Options) (hPsat : opts.usePsat = false) :
    (1 / 100000 ≤ zd05_density_g_cm3 Pfun05 target05 tol05 ∧
      zd05_density_g_cm3 Pfun05 target05 tol05 ≤ 5 / 2 ∧
      0 < zd05_density_g_cm3 Pfun05 target05 tol05) ∧
    (1 / 100000 ≤ calculateDensity_ZD09 Pfun09 target09 T_C opts ∧
      calculateDensity_ZD09 Pfun09 target09 T_C opts ≤ 10 ∧
      0 < calculateDensity_ZD09 Pfun09 target09 T_C opts) :=
  by
  have h05 := bisectLoop_mem Pfun05 target05 tol05 (1 / 100000) (5 / 2) 50
    ⟨1 / 100000, 5 / 2, 1 / 100000⟩ (by norm_num) (by norm_num) (by norm_num)
    (by norm_num)
  have hdef : calculateDensity_ZD09 Pfun09 target09 T_C opts =
      bisectLoop Pfun09 target09 opts.pressureToleranceBar opts.maxIterations
        ⟨1 / 100000, 10, 1 / 100000⟩ := by
    simp [calculateDensity_ZD09, hPsat]
  have h09 := bisectLoop_mem Pfun09 target09 opts.pressureToleranceBar
    (1 / 100000) 10 opts.maxIterations ⟨1 / 100000, 10, 1 / 100000⟩
    (by norm_num) (by norm_num) (by norm_num) (by norm_num)
  refine ⟨⟨h05.1, h05.2, lt_of_lt_of_le (by norm_num) h05.1⟩, ?_⟩
  rw [hdef]
  exact ⟨h09.1, h09.2, lt_of_lt_of_le (by norm_num) h09.1⟩

/-- Witness for C9 at a concrete pressure model and target. -/
theorem C9_bisection_bracket_positive_witness :
    (1 / 100000 ≤ zd05_density_g_cm3 (fun r => r * r) (-3) (1 / 10) ∧
      zd05_density_g_cm3 (fun r => r * r) (-3) (1 / 10) ≤ 5 / 2 ∧
      0 < zd05_density_g_cm3 (fun r => r * r) (-3) (1 / 10)) ∧
    (1 / 100000 ≤ calculateDensity_ZD09 (fun r => r * r) 1000000 25
        { usePsat := false, pressureToleranceBar := 1 / 100,
          maxIterations := 50 } ∧
      calculateDensity_ZD09 (fun r => r * r) 1000000 25
        { usePsat := false, pressureToleranceBar := 1 / 100,
          maxIterations := 50 } ≤ 10 ∧
      0 < calculateDensity_ZD09 (fun r => r * r) 1000000 25
        { usePsat := false, pressureToleranceBar := 1 / 100,
          maxIterations := 50 }) :=
  C9_bisection_bracket_positive (fun r => r * r) (fun r => r * r) (-3)
    (1 / 10) 1000000 25
    { usePsat := false, pressureToleranceBar := 1 / 100, maxIterations := 50 }
    rfl

--------------------------------------------------------------------------------
-- Theorems: integration engine
--------------------------------------------------------------------------------

/-- A thermo model whose density is `1 / (P^2 + 1)`, so that the molar
volume `M / rho` with `M = 1` is the strictly convex function `P^2 + 1`
(the density is everywhere positive). -/
def curvedThermoModel : ThermoModel := fun _ P => ⟨1 / (P ^ 2 + 1), 0, 0, 0, 0, 0⟩

/-- C1: evaluation of the adaptive Simpson engine at an input where the
recursion-depth cap binds.  On `[0, 1]` with integrand `P^2 + 1`
(midpoint error estimator `1/4 > tol = 0`) and `max_depth = 0`, the code
recurses past the cap and both halves return `0.0`, so the whole integral
collapses to `0` — even though the branch's own 3-point Simpson estimate,
which the specification says is accepted at the cap, is `4/3 ≠ 0`.  The
capped branch's contribution is discarded, not accepted. -/
theorem C1_adaptive_cap_discards_branch :
    adaptiveSimpson curvedThermoModel 0 0 1 0 0 1 = 0 ∧
    (1 - 0) / 6 * (VmQ 1 (curvedThermoModel 0 0) +
      4 * VmQ 1 (curvedThermoModel 0 ((0 + 1) / 2)) +
      VmQ 1 (curvedThermoModel 0 1)) = 4 / 3 ∧
    (4 : ℚ) / 3 ≠ 0 := by
  refine ⟨?_, ?_, by norm_num⟩ <;>
    norm_num [adaptiveSimpson, adaptiveSimpsonsHelper, curvedThermoModel, VmQ]

/-- A constant thermo model with unit density, used as a concrete
integrand generator. -/
def constThermoModel : ThermoModel := fun _ _ => ⟨1, 0, 0, 0, 0, 0⟩

/-- C2 counterexample: at `T = 373.15 K` and `P = 500 bar < 1000 bar`, the
DewIntegral Gibbs model returns the sentinel `0`, not the converted 1-kbar
polynomial baseline (which is nonzero there), refuting the claim for
pressures strictly below 1000 bar. -/
theorem C2_below_1kbar_counterexample :
    gibbsDewIntegral_J_per_mol constThermoModel (37315 / 100) (5 * 10 ^ 7) {} =
      0 ∧
    GAtOneKb_cal_per_mol (37315 / 100 - 27315 / 100) * (4184 / 1000) ≠ 0 := by
  constructor
  · simp only [gibbsDewIntegral_J_per_mol]
    rw [if_pos (by norm_num : (5 * 10 ^ 7 : ℚ) / 10 ^ 5 < 1000)]
  · norm_num [GAtOneKb_cal_per_mol]

/-- C2 (amended): strictly below the 1000-bar reference pressure the
DewIntegral Gibbs model returns exactly `0` (domain sentinel, no integral
contribution); at exactly 1000 bar it returns exactly the converted
closed-form baseline `G1k(T_C) * 4.184` with zero integral contribution. -/
theorem C2_reference_pressure_boundary (wtFun : ThermoModel)
    (T_K P_Pa : ℚ) (opt : WaterGibbsModelOptions) :
    (P_Pa / 10 ^ 5 < 1000 →
      gibbsDewIntegral_J_per_mol wtFun T_K P_Pa opt = 0) ∧
    (P_Pa / 10 ^ 5 = 1000 →
      gibbsDewIntegral_J_per_mol wtFun T_K P_Pa opt =
        GAtOneKb_cal_per_mol (T_K - 27315 / 100) * (4184 / 1000)) := by
  constructor
  · intro h
    simp only [gibbsDewIntegral_J_per_mol]
    rw [if_pos h]
  · intro h
    simp only [gibbsDewIntegral_J_per_mol]
    rw [if_neg (by rw [h]; exact lt_irrefl 1000), if_pos h]

/-- Witness for C2 (amended) at 500 bar and at exactly 1000 bar. -/
theorem C2_reference_pressure_boundary_witness :
    gibbsDewIntegral_J_per_mol constThermoModel (37315 / 100) (5 * 10 ^ 7)
      {} = 0 ∧
    gibbsDewIntegral_J_per_mol constThermoModel (37315 / 100) (10 ^ 8) {} =
      GAtOneKb_cal_per_mol (37315 / 100 - 27315 / 100) * (4184 / 1000) :=
  ⟨(C2_reference_pressure_boundary constThermoModel (37315 / 100)
      (5 * 10 ^ 7) {}).1 (by norm_num),
    (C2_reference_pressure_boundary constThermoModel (37315 / 100)
      (10 ^ 8) {}).2 (by norm_num)⟩

--------------------------------------------------------------------------------
-- Theorems: Born omega model
--------------------------------------------------------------------------------

/-- C3: whenever the charge is zero, the species is flagged hydrogen-like, or
the pressure exceeds the configured cutoff (default 6000 bar), the Born
omega function returns exactly the reference coefficient and its pressure
derivative returns exactly zero, for every solvent-g module, temperature,
water state and reference value. -/
theorem C3_born_omega_trivial_shortcircuit (gfun : SolventGFun)
    (dgfun : SolventDgdPFun) (T P : ℚ) (wt : WaterThermoProps)
    (wref_Jmol Z : ℚ) (opt : WaterBornOmegaOptions)
    (h : Z = 0 ∨ opt.isHydrogenLike = true ∨
      opt.maxPressureForVariation < P) :
    waterBornOmegaDEW gfun T P wt wref_Jmol Z opt = wref_Jmol ∧
    waterBornDOmegaDP_DEW gfun dgfun T P wt wref_Jmol Z opt = 0 := by
  constructor
  · simp only [waterBornOmegaDEW]
    rw [if_pos h]
  · simp only [waterBornDOmegaDP_DEW]
    rw [if_pos h]

/-- Witness for C3 with a zero charge, a hydrogen-like flag, and a pressure
beyond the default cutoff, at concrete states. -/
theorem C3_born_omega_trivial_shortcircuit_witness :
    (waterBornOmegaDEW (fun _ _ _ _ => 1) 300 1000 ⟨900, 0, 0, 0, 0, 0⟩
        12345 0 {} = 12345 ∧
      waterBornDOmegaDP_DEW (fun _ _ _ _ => 1) (fun _ _ _ _ _ => 1) 300 1000
        ⟨900, 0, 0, 0, 0, 0⟩ 12345 0 {} = 0) ∧
    (waterBornOmegaDEW (fun _ _ _ _ => 1) 300 1000 ⟨900, 0, 0, 0, 0, 0⟩
        12345 (-2) { isHydrogenLike := true } = 12345 ∧
      waterBornDOmegaDP_DEW (fun _ _ _ _ => 1) (fun _ _ _ _ _ => 1) 300 1000
        ⟨900, 0, 0, 0, 0, 0⟩ 12345 (-2) { isHydrogenLike := true } = 0) ∧
    (waterBornOmegaDEW (fun _ _ _ _ => 1) 300 (7000 * 10 ^ 5)
        ⟨900, 0, 0, 0, 0, 0⟩ 12345 (-2) {} = 12345 ∧
      waterBornDOmegaDP_DEW (fun _ _ _ _ => 1) (fun _ _ _ _ _ => 1) 300
        (7000 * 10 ^ 5) ⟨900, 0, 0, 0, 0, 0⟩ 12345 (-2) {} = 0) :=
  ⟨C3_born_omega_trivial_shortcircuit (fun _ _ _ _ => 1)
      (fun _ _ _ _ _ => 1) 300 1000 ⟨900, 0, 0, 0, 0, 0⟩ 12345 0 {}
      (Or.inl rfl),
    C3_born_omega_trivial_shortcircuit (fun _ _ _ _ => 1)
      (fun _ _ _ _ _ => 1) 300 1000 ⟨900, 0, 0, 0, 0, 0⟩ 12345 (-2)
      { isHydrogenLike := true } (Or.inr (Or.inl rfl)),
    C3_born_omega_trivial_shortcircuit (fun _ _ _ _ => 1)
      (fun _ _ _ _ _ => 1) 300 (7000 * 10 ^ 5) ⟨900, 0, 0, 0, 0, 0⟩ 12345
      (-2) {} (Or.inr (Or.inr (by norm_num)))⟩

/-- C4 counterexample: a non-short-circuited input whose reference-radius
denominator is strictly negative but whose effective radius stays positive
(the solvent-g value `1/50` is attainable near `rho → 1` inside the
correction window): the source only traps `denom == 0.0`, so the negative
denominator propagates and the omega function does not return `wref`. -/
theorem C4_negative_denominator_not_trapped :
    bornDenom (-41840000) (-1) < 0 ∧
    waterBornOmegaDEW (fun _ _ _ _ => 1 / 50) 300 1000 ⟨900, 0, 0, 0, 0, 0⟩
      (-41840000) (-1) {} ≠ -41840000 := by
  constructor <;>
    norm_num [waterBornOmegaDEW, bornDenom, eta_cal_per_A]

/-- C4 (amended): the degenerate guards of the Born omega model fire when
the reference-radius denominator is exactly zero, or when the effective
radius is non-positive; in those cases the omega function returns exactly
`wref` and its pressure derivative returns exactly `0` (a strictly negative
denominator is not itself trapped). -/
theorem C4_degenerate_guards (gfun : SolventGFun) (dgfun : SolventDgdPFun)
    (T P : ℚ) (wt : WaterThermoProps) (wref_Jmol Z : ℚ)
    (opt : WaterBornOmegaOptions)
    (h : bornDenom wref_Jmol Z = 0 ∨
      bornRe gfun T P wt wref_Jmol Z opt ≤ 0) :
    waterBornOmegaDEW gfun T P wt wref_Jmol Z opt = wref_Jmol ∧
    waterBornDOmegaDP_DEW gfun dgfun T P wt wref_Jmol Z opt = 0 := by
  by_cases hsc : Z = 0 ∨ opt.isHydrogenLike = true ∨
      opt.maxPressureForVariation < P
  · constructor
    · simp only [waterBornOmegaDEW]; rw [if_pos hsc]
    · simp only [waterBornDOmegaDP_DEW]; rw [if_pos hsc]
  · by_cases hd : bornDenom wref_Jmol Z = 0
    · constructor
      · simp only [waterBornOmegaDEW]
        rw [if_neg hsc, if_pos hd]
      · simp only [waterBornDOmegaDP_DEW]
        rw [if_neg hsc, if_pos hd]
    · have hr : bornRe gfun T P wt wref_Jmol Z opt ≤ 0 := h.resolve_left hd
      have hr2 : Z ^ 2 / bornDenom wref_Jmol Z +
          |Z| * gfun T P wt opt.solvent ≤ 0 := hr
      constructor
      · simp only [waterBornOmegaDEW]
        rw [if_neg hsc, if_neg hd, if_pos hr2]
      · simp only [waterBornDOmegaDP_DEW]
        rw [if_neg hsc, if_neg hd, if_pos hr2]

/-- Witness for C4 (amended): an exactly-zero denominator
(`wref_cal = -eta * Z / 3.082` with `Z = 3082`). -/
theorem C4_degenerate_guards_witness :
    bornDenom (-694656968) 3082 = 0 ∧
    waterBornOmegaDEW (fun _ _ _ _ => 0) 300 1000 ⟨900, 0, 0, 0, 0, 0⟩
      (-694656968) 3082 {} = -694656968 ∧
    waterBornDOmegaDP_DEW (fun _ _ _ _ => 0) (fun _ _ _ _ _ => 0) 300 1000
      ⟨900, 0, 0, 0, 0, 0⟩ (-694656968) 3082 {} = 0 := by
  have hd : bornDenom (-694656968) 3082 = 0 := by
    norm_num [bornDenom, eta_cal_per_A]
  have := C4_degenerate_guards (fun _ _ _ _ => 0) (fun _ _ _ _ _ => 0) 300
    1000 ⟨900, 0, 0, 0, 0, 0⟩ (-694656968) 3082 {} (Or.inl hd)
  exact ⟨hd, this.1, this.2⟩

--------------------------------------------------------------------------------
-- Theorems: electro model consistency
--------------------------------------------------------------------------------

/-- The Born-coefficient consistency property of an electro state: whenever
its `epsilon` is nonzero, `bornZ = -1/epsilon` and
`bornQ = epsilonP / epsilon^2` hold with respect to the same state. -/
def BornConsistent (we : WaterElectroProps) : Prop :=
  we.epsilon ≠ 0 →
    we.bornZ = -1 / we.epsilon ∧
    we.bornQ = we.epsilonP / (we.epsilon * we.epsilon)

theorem fernandez_bornConsistent (fits : DielectricFits) (T P : ℚ)
    (wt : WaterThermoProps) :
    BornConsistent (waterElectroPropsFernandez1997 fits T P wt) := by
  intro h
  simp only [waterElectroPropsFernandez1997] at h ⊢
  exact ⟨by rw [if_pos h], by rw [if_pos h]⟩

theorem franck_bornConsistent (fits : DielectricFits) (T P : ℚ)
    (wt : WaterThermoProps) :
    BornConsistent (waterElectroPropsFranck1990 fits T P wt) := by
  intro h
  simp only [waterElectroPropsFranck1990] at h
  refine ⟨by simp only [waterElectroPropsFranck1990], ?_⟩
  simp only [waterElectroPropsFranck1990]
  rw [if_pos h]

theorem powerFunction_bornConsistent (fits : DielectricFits) (T P : ℚ)
    (wt : WaterThermoProps) :
    BornConsistent (waterElectroPropsPowerFunction fits T P wt) := by
  intro h
  simp only [waterElectroPropsPowerFunction] at h ⊢
  exact ⟨by rw [if_pos h], by rw [if_pos h]⟩

theorem johnsonNorton_bornConsistent (fits : DielectricFits) (T P : ℚ)
    (wt : WaterThermoProps) :
    BornConsistent (waterElectroPropsJohnsonNorton fits T P wt) := by
  intro h
  simp only [waterElectroPropsJohnsonNorton] at h ⊢
  exact ⟨by rw [if_pos h], by rw [if_pos h]⟩

/-- The Psat override preserves Born-coefficient consistency: when it fires
it rebuilds `bornZ` from the overriding epsilon and reconstructs `epsilonP`
from the overriding Q, so the identities still hold exactly. -/
theorem maybeApplyPsatOverride_bornConsistent (psat : ℚ → ℚ) (T P : ℚ)
    (opt : WaterElectroModelOptions) (we : WaterElectroProps)
    (hwe : BornConsistent we) :
    BornConsistent (maybeApplyPsatOverride psat T P opt we) := by
  intro h
  simp only [maybeApplyPsatOverride] at h ⊢
  split_ifs at h ⊢ with h1 h2 h3
  · exact hwe h
  · exact hwe h
  · exact hwe h
  · have hne : waterPsatEpsilonDEW T ≠ 0 := fun h0 => h3 (le_of_eq h0)
    refine ⟨rfl, ?_⟩
    show waterPsatBornQDEW T =
      waterPsatBornQDEW T * (waterPsatEpsilonDEW T * waterPsatEpsilonDEW T) /
        (waterPsatEpsilonDEW T * waterPsatEpsilonDEW T)
    rw [mul_div_assoc, div_self (mul_ne_zero hne hne), mul_one]

/-- C6: every electro state produced by the dielectric model selector — any
of the four formulations, with or without the near-saturation polynomial
override — satisfies `bornZ = -1/epsilon` and
`bornQ = epsilonP / epsilon^2` with respect to its own `epsilon` and
`epsilonP` fields, whenever its `epsilon` is nonzero. -/
theorem C6_born_coefficients_consistent (fits : DielectricFits)
    (psat : ℚ → ℚ) (T P : ℚ) (wt : WaterThermoProps)
    (opt : WaterElectroModelOptions)
    (h : (waterElectroPropsModel fits psat T P wt opt).epsilon ≠ 0) :
    (waterElectroPropsModel fits psat T P wt opt).bornZ =
      -1 / (waterElectroPropsModel fits psat T P wt opt).epsilon ∧
    (waterElectroPropsModel fits psat T P wt opt).bornQ =
      (waterElectroPropsModel fits psat T P wt opt).epsilonP /
        ((waterElectroPropsModel fits psat T P wt opt).epsilon *
          (waterElectroPropsModel fits psat T P wt opt).epsilon) := by
  have hbase : BornConsistent
      (match opt.model with
        | .JohnsonNorton1991 => waterElectroPropsJohnsonNorton fits T P wt
        | .Franck1990 => waterElectroPropsFranck1990 fits T P wt
        | .Fernandez1997 => waterElectroPropsFernandez1997 fits T P wt
        | .PowerFunction => waterElectroPropsPowerFunction fits T P wt) := by
    cases hm : opt.model with
    | JohnsonNorton1991 => simpa [hm] using johnsonNorton_bornConsistent fits T P wt
    | Franck1990 => simpa [hm] using franck_bornConsistent fits T P wt
    | Fernandez1997 => simpa [hm] using fernandez_bornConsistent fits T P wt
    | PowerFunction => simpa [hm] using powerFunction_bornConsistent fits T P wt
  exact maybeApplyPsatOverride_bornConsistent psat T P opt _ hbase h

/-- Witness for C6: the Fernandez branch at a concrete constant fit with
epsilon 2, no Psat override. -/
theorem C6_born_coefficients_consistent_witness :
    (waterElectroPropsModel
      ⟨fun _ _ => 2, fun _ _ => 3, fun _ _ => 2, fun _ _ => 3,
        fun _ _ => 2, fun _ _ => 3, fun _ _ => 2, fun _ _ => 3⟩
      (fun _ => 0) 300 (10 ^ 6) ⟨800, 1, 0, 0, 0, 0⟩
      { model := .Fernandez1997 }).bornZ =
      -1 / (waterElectroPropsModel
      ⟨fun _ _ => 2, fun _ _ => 3, fun _ _ => 2, fun _ _ => 3,
        fun _ _ => 2, fun _ _ => 3, fun _ _ => 2, fun _ _ => 3⟩
      (fun _ => 0) 300 (10 ^ 6) ⟨800, 1, 0, 0, 0, 0⟩
      { model := .Fernandez1997 }).epsilon ∧
    (waterElectroPropsModel
      ⟨fun _ _ => 2, fun _ _ => 3, fun _ _ => 2, fun _ _ => 3,
        fun _ _ => 2, fun _ _ => 3, fun _ _ => 2, fun _ _ => 3⟩
      (fun _ => 0) 300 (10 ^ 6) ⟨800, 1, 0, 0, 0, 0⟩
      { model := .Fernandez1997 }).bornQ =
      (waterElectroPropsModel
      ⟨fun _ _ => 2, fun _ _ => 3, fun _ _ => 2, fun _ _ => 3,
        fun _ _ => 2, fun _ _ => 3, fun _ _ => 2, fun _ _ => 3⟩
      (fun _ => 0) 300 (10 ^ 6) ⟨800, 1, 0, 0, 0, 0⟩
      { model := .Fernandez1997 }).epsilonP /
        ((waterElectroPropsModel
      ⟨fun _ _ => 2, fun _ _ => 3, fun _ _ => 2, fun _ _ => 3,
        fun _ _ => 2, fun _ _ => 3, fun _ _ => 2, fun _ _ => 3⟩
      (fun _ => 0) 300 (10 ^ 6) ⟨800, 1, 0, 0, 0, 0⟩
      { model := .Fernandez1997 }).epsilon *
          (waterElectroPropsModel
      ⟨fun _ _ => 2, fun _ _ => 3, fun _ _ => 2, fun _ _ => 3,
        fun _ _ => 2, fun _ _ => 3, fun _ _ => 2, fun _ _ => 3⟩
      (fun _ => 0) 300 (10 ^ 6) ⟨800, 1, 0, 0, 0, 0⟩
      { model := .Fernandez1997 }).epsilon) :=
  C6_born_coefficients_consistent
    ⟨fun _ _ => 2, fun _ _ => 3, fun _ _ => 2, fun _ _ => 3,
      fun _ _ => 2, fun _ _ => 3, fun _ _ => 2, fun _ _ => 3⟩
    (fun _ => 0) 300 (10 ^ 6) ⟨800, 1, 0, 0, 0, 0⟩
    { model := .Fernandez1997 }
    (by norm_num [waterElectroPropsModel, waterElectroPropsFernandez1997,
      maybeApplyPsatOverride])

--------------------------------------------------------------------------------
-- Theorems: solvent (Born-g) function
--------------------------------------------------------------------------------

/-- C7: in the bulk-phase (non-Psat) evaluation, for every temperature,
pressure and water state whose density reaches 1 g/cm^3
(`wt.D / 1000 >= 1` in the model's native unit), the solvent Born-g
function returns exactly zero, and its pressure derivative returns exactly
zero under the same condition — for every choice of the transcendental
sub-fits. -/
theorem C7_solvent_g_zero_at_high_density (rpow : ℚ → ℚ → ℚ)
    (psatP psatDgdP : ℚ → ℚ) (T P : ℚ) (wt : WaterThermoProps) (g : ℚ)
    (opt : WaterSolventFunctionOptions) (hPsat : opt.Psat = false)
    (hrho : 1 ≤ wt.D / 1000) :
    waterSolventFunctionDEW rpow psatP T P wt opt = 0 ∧
    waterSolventFunctionDgdP_DEW rpow psatDgdP T P wt g opt = 0 := by
  constructor
  · simp only [waterSolventFunctionDEW, hPsat, Bool.false_eq_true, if_false]
    rw [if_pos hrho]
  · simp only [waterSolventFunctionDgdP_DEW, hPsat, Bool.false_eq_true,
      if_false]
    rw [if_pos hrho]

/-- Witness for C7 at a concrete high-density state (1.5 g/cm^3). -/
theorem C7_solvent_g_zero_at_high_density_witness :
    waterSolventFunctionDEW (fun _ _ => 3) (fun _ => 5) 400 (10 ^ 6)
      ⟨1500, 2, 0, 0, 0, 0⟩ {} = 0 ∧
    waterSolventFunctionDgdP_DEW (fun _ _ => 3) (fun _ => 5) 400 (10 ^ 6)
      ⟨1500, 2, 0, 0, 0, 0⟩ 7 {} = 0 :=
  C7_solvent_g_zero_at_high_density (fun _ _ => 3) (fun _ => 5) (fun _ => 5)
    400 (10 ^ 6) ⟨1500, 2, 0, 0, 0, 0⟩ 7 {} rfl (by norm_num)

--------------------------------------------------------------------------------
-- Theorems: totality of the integration engine over non-positive densities
--------------------------------------------------------------------------------

/-- The guard fact behind every integrand evaluation: a non-positive density
contributes exactly zero (the quotient `M / D` is never formed on that
side of the guard). -/
theorem VmQ_nonpos_zero (M : ℚ) (wt : WaterThermoProps) (h : wt.D ≤ 0) :
    VmQ M wt = 0 := by
  simp only [VmQ]
  rw [if_neg (not_lt.mpr h)]

theorem adaptiveSimpsonsHelper_zero (wtFun : ThermoModel) (T : ℚ)
    (hall : ∀ P, (wtFun T P).D ≤ 0) :
    ∀ (fuel : Nat) (P_L P_R tol M : ℚ),
      adaptiveSimpsonsHelper wtFun T fuel P_L P_R tol M 0 0 = 0 := by
  intro fuel
  induction fuel with
  | zero => intro P_L P_R tol M; rfl
  | succ n ih =>
    intro P_L P_R tol M
    have hv : VmQ M (wtFun T ((P_L + P_R) / 2)) = 0 :=
      VmQ_nonpos_zero M _ (hall _)
    simp only [adaptiveSimpsonsHelper, hv]
    split_ifs
    · ring
    · rw [ih, ih]; ring

theorem trapezoidal_foldl_const (wtFun : ThermoModel) (T P_start dP M : ℚ)
    (hall : ∀ P, (wtFun T P).D ≤ 0) :
    ∀ (l : List Nat) (st : ℚ × ℚ),
      l.foldl
        (fun (st : ℚ × ℚ) (i : Nat) =>
          let wt := wtFun T (P_start + (i : ℚ) * dP)
          if wt.D ≤ 0 then st
          else (st.1 + 1 / 2 * (st.2 + M / wt.D) * dP, M / wt.D)) st = st :=
  by
  intro l
  induction l with
  | nil => intro st; rfl
  | cons a l ih =>
    intro st
    simp only [List.foldl_cons]
    rw [if_pos (hall _)]
    exact ih st

/-- C10: the high-precision integration paths never divide by a non-positive
density: the integrand guard maps any state with `D <= 0` to exactly zero,
and consequently, whenever the thermo model reports non-positive density at
every pressure, all four quadrature engines return exactly zero for every
interval, resolution, tolerance and depth — total functions, with the
degenerate evaluations contributing nothing. -/
theorem C10_integrand_guard_total (wtFun : ThermoModel)
    (T a b dP tolA M : ℚ) (n : Nat) (m : Nat) (wt : WaterThermoProps)
    (hwt : wt.D ≤ 0) (hall : ∀ P, (wtFun T P).D ≤ 0) :
    VmQ M wt = 0 ∧
    simpsonRule wtFun T a b n M = 0 ∧
    gaussLegendre16 wtFun T a b n M = 0 ∧
    adaptiveSimpson wtFun T a b tolA m M = 0 ∧
    trapezoidalIntegral wtFun T a dP n M = 0 := by
  have hv : ∀ P, VmQ M (wtFun T P) = 0 := fun P =>
    VmQ_nonpos_zero M _ (hall P)
  refine ⟨VmQ_nonpos_zero M wt hwt, ?_, ?_, ?_, ?_⟩
  · simp only [simpsonRule, hv]
    have h1 : ∀ (k : Nat),
        (Finset.range k).sum (fun i => if i % 2 = 1 then 4 * (0 : ℚ) else 0)
          = 0 :=
      fun k => Finset.sum_eq_zero (fun i _ => by split_ifs <;> ring)
    have h2 : ∀ (k : Nat),
        (Finset.range k).sum
          (fun i => if 2 ≤ i ∧ i % 2 = 0 then 2 * (0 : ℚ) else 0) = 0 :=
      fun k => Finset.sum_eq_zero (fun i _ => by split_ifs <;> ring)
    rw [h1, h2]
    ring
  · simp only [gaussLegendre16, hv]
    refine Finset.sum_eq_zero (fun seg _ => ?_)
    have hmap : (glPairs.map (fun nw => nw.2 * (0 : ℚ))).sum = 0 := by
      simp
    rw [hmap]
    ring
  · simp only [adaptiveSimpson, hv]
    exact adaptiveSimpsonsHelper_zero wtFun T hall (m + 1) a b tolA M
  · simp only [trapezoidalIntegral, hv]
    rw [trapezoidal_foldl_const wtFun T a dP M hall]

/-- Witness for C10 with a thermo model of constant density `-1`. -/
theorem C10_integrand_guard_total_witness :
    VmQ 1 ⟨-1, 0, 0, 0, 0, 0⟩ = 0 ∧
    simpsonRule (fun _ _ => ⟨-1, 0, 0, 0, 0, 0⟩) 300 (10 ^ 8) (2 * 10 ^ 8) 4
      1 = 0 ∧
    gaussLegendre16 (fun _ _ => ⟨-1, 0, 0, 0, 0, 0⟩) 300 (10 ^ 8)
      (2 * 10 ^ 8) 4 1 = 0 ∧
    adaptiveSimpson (fun _ _ => ⟨-1, 0, 0, 0, 0, 0⟩) 300 (10 ^ 8)
      (2 * 10 ^ 8) (1 / 10) 3 1 = 0 ∧
    trapezoidalIntegral (fun _ _ => ⟨-1, 0, 0, 0, 0, 0⟩) 300 (10 ^ 8)
      (25 * 10 ^ 6) 4 1 = 0 :=
  C10_integrand_guard_total (fun _ _ => ⟨-1, 0, 0, 0, 0, 0⟩) 300 (10 ^ 8)
    (2 * 10 ^ 8) (25 * 10 ^ 6) (1 / 10) 1 4 3 ⟨-1, 0, 0, 0, 0, 0⟩
    (by norm_num) (fun _ => by norm_num)

end DEW
